import Mathlib

/-!
Shallow embedding of the collection-reconciliation core of the
pr-documentator service (Go), together with theorems checking the
natural-language specification against it.

Sources embedded:
* `io/postman/client.go`: `convertRouteToPostmanItem`, `updateExistingItem`,
  `markItemAsDeprecated`, `updateCollectionWithRoutes`;
* `internal/services` analyzer: `extractRoutesFromItems`, `extractPathFromURL`,
  the post-oracle part of `AnalyzePR`;
* `internal/services/token_manager.go`: `CreateSession`, `GetSession`.

Modelling conventions:
* Go strings are Lean `String`s, read as their character sequence
  (`String.data`); Go `len(s)` and `s[i:j]` act on bytes, which coincides
  with characters on the ASCII data this system handles, so `len(s)` is
  `s.data.length` and `s[0:n]` is `s.data.take n`. Out-of-range slicing (a
  Go runtime panic) is modelled by returning `none` / a dedicated
  `panicked` constructor, which propagates like a Go panic.
* Go `map[string]any` schema payloads are opaque association lists; Go's
  `json.MarshalIndent` (an external library call whose exact text no claim
  inspects) is modelled by a simple deterministic serializer.
* Go `float64` confidence is modelled as `Rat`: it is only ever carried
  through, never computed with.
* `time.Time` is modelled as an integer timeline (`Int`), `t.After(u)` as
  `t > u`, `t.Add(d)` as `t + d`.
-/

namespace PRDoc

/-- Opaque JSON-like payload (`map[string]any` in Go). Only emptiness is ever
inspected by the embedded code. -/
def JsonMap : Type := List (String × String)

instance : DecidableEq JsonMap := by
  unfold JsonMap; infer_instance

/-- Models Go `json.MarshalIndent(m, "", "  ")` over the simplified payload
model: some deterministic string; no claim inspects its exact text. -/
def jsonMarshalIndent (m : JsonMap) : String :=
  "\x7b\n" ++ String.intercalate ",\n" (m.map (fun kv => "  \x22" ++ kv.1 ++ "\x22: \x22" ++ kv.2 ++ "\x22")) ++ "\n\x7d"

/-- `models.Parameter` (analysis.go). `Example any` is modelled as the string
Go's `fmt.Sprintf("%v", example)` would produce. -/
structure Parameter where
  name : String
  inLoc : String
  type : String
  required : Bool
  description : String
  exampleVal : String
deriving DecidableEq

/-- `models.Header` (analysis.go), with `Example any` pre-stringified. -/
structure RouteHeader where
  name : String
  required : Bool
  description : String
  exampleVal : String
deriving DecidableEq

/-- `models.APIRoute` (analysis.go): one inferred endpoint. -/
structure APIRoute where
  method : String
  path : String
  description : String
  parameters : List Parameter
  requestBody : JsonMap
  response : JsonMap
  headers : List RouteHeader
  deprecated : Bool
deriving DecidableEq

/-- `models.PostmanQueryParam` (postman.go). -/
structure PostmanQueryParam where
  key : String
  value : String
  disabled : Bool
  description : String
deriving DecidableEq

/-- `models.PostmanHeader` (postman.go). -/
structure PostmanHeader where
  key : String
  value : String
  type : String
  disabled : Bool
  description : String
deriving DecidableEq

/-- `models.PostmanBody` (postman.go). The `Options` map is fixed to the
constant `{"raw": {"language": "json"}}` by the only writer, kept as a flag. -/
structure PostmanBody where
  mode : String
  raw : String
  rawLanguageJsonOption : Bool
deriving DecidableEq

/-- `models.PostmanURL` (postman.go); `Protocol`/`Variable` never touched. -/
structure PostmanURL where
  raw : String
  host : List String
  path : List String
  query : List PostmanQueryParam
deriving DecidableEq

/-- `models.PostmanRequest` (postman.go); `Auth` never touched. -/
structure PostmanRequest where
  method : String
  header : List PostmanHeader
  body : Option PostmanBody
  url : PostmanURL
  description : String
deriving DecidableEq

/-- `models.PostmanResponse` (postman.go); `OriginalRequest` never touched. -/
structure PostmanResponse where
  name : String
  status : String
  code : Int
  header : List PostmanHeader
  body : String
deriving DecidableEq

/-- `models.PostmanItem` (postman.go): a node of the collection tree, either
a request leaf or a folder with nested `items`. -/
inductive PostmanItem : Type where
  | mk (id : String) (name : String) (description : String)
       (request : Option PostmanRequest) (response : List PostmanResponse)
       (items : List PostmanItem) : PostmanItem

def PostmanItem.id : PostmanItem → String
  | .mk v _ _ _ _ _ => v

def PostmanItem.name : PostmanItem → String
  | .mk _ v _ _ _ _ => v

def PostmanItem.description : PostmanItem → String
  | .mk _ _ v _ _ _ => v

def PostmanItem.request : PostmanItem → Option PostmanRequest
  | .mk _ _ _ v _ _ => v

def PostmanItem.response : PostmanItem → List PostmanResponse
  | .mk _ _ _ _ v _ => v

def PostmanItem.items : PostmanItem → List PostmanItem
  | .mk _ _ _ _ _ v => v

/-- `models.PostmanCollection` (postman.go); metadata never touched by the
reconciliation code. -/
structure PostmanCollection where
  id : String
  name : String
  description : String
  items : List PostmanItem

/-- `models.PostmanUpdate` (analysis.go): the mutation summary. Go `int`
counters only ever start at 0 and increment, so `Nat` is exact. -/
structure PostmanUpdate where
  collectionID : String
  status : String
  itemsAdded : Nat
  itemsModified : Nat
  itemsDeleted : Nat
  errorMessage : String
  updatedAt : String
deriving DecidableEq

/-- `models.ExistingRoute` (analysis.go). -/
structure ExistingRoute where
  method : String
  path : String
  name : String
  description : String
  folderPath : List String
deriving DecidableEq

/-- `models.AnalysisResponse` (analysis.go). -/
structure AnalysisResponse where
  newRoutes : List APIRoute
  modifiedRoutes : List APIRoute
  deletedRoutes : List APIRoute
  summary : String
  confidence : Rat
  postmanUpdate : PostmanUpdate

/-! ## `convertRouteToPostmanItem` (client.go:285-382) -/

/-- client.go:287-297: path segmentation. Go tests `path[0] == '/'` on a
string known non-empty, so byte 0 exists; byte/char agree on ASCII `'/'`. -/
def routePathSegments (path : String) : List String :=
  if path ≠ "" ∧ path ≠ "/" then
    let stripped :=
      match path.data with
      | '/' :: rest => String.mk rest
      | _ => path
    ["{{baseUrl}}", stripped]
  else
    ["{{baseUrl}}"]

/-- client.go:285-382 `convertRouteToPostmanItem`: deterministic conversion of
an `APIRoute` to a `PostmanItem`. -/
def convertRouteToPostmanItem (route : APIRoute) : PostmanItem :=
  let headers : List PostmanHeader :=
    { key := "Content-Type", value := "application/json", type := "text",
      disabled := false, description := "" } ::
    route.headers.map (fun h =>
      { key := h.name, value := h.exampleVal, type := "text",
        disabled := false, description := h.description })
  let queryParams : List PostmanQueryParam :=
    (route.parameters.filter (fun p => p.inLoc = "query")).map (fun p =>
      { key := p.name, value := p.exampleVal, description := p.description,
        disabled := !p.required })
  let body : Option PostmanBody :=
    if route.requestBody ≠ [] then
      some { mode := "raw", raw := jsonMarshalIndent route.requestBody,
             rawLanguageJsonOption := true }
    else none
  let responses : List PostmanResponse :=
    if route.response ≠ [] then
      [{ name := "Success Response", status := "OK", code := 200,
         header := [{ key := "Content-Type", value := "application/json",
                      type := "", disabled := false, description := "" }],
         body := jsonMarshalIndent route.response }]
    else []
  PostmanItem.mk "" (route.method ++ " " ++ route.path) route.description
    (some { method := route.method
            header := headers
            body := body
            url := { raw := "{{baseUrl}}" ++ route.path
                     host := ["{{baseUrl}}"]
                     path := routePathSegments route.path
                     query := queryParams }
            description := route.description })
    responses
    []

/-! ## Matching (client.go:384-424) -/

/-- The match test shared by `updateExistingItem` (client.go:388-390) and
`markItemAsDeprecated` (client.go:404-406): display name equals
`"{method} {path}"`, or the request's method and raw URL equal the
candidate's. -/
def matchesRoute (route : APIRoute) (item : PostmanItem) : Bool :=
  item.name == route.method ++ " " ++ route.path ||
    (match item.request with
     | some req =>
         req.method == route.method && req.url.raw == "{{baseUrl}}" ++ route.path
     | none => false)

/-- client.go:384-398 `updateExistingItem`: linear scan of the TOP-LEVEL item
list; the first matching item is replaced by a fresh conversion. `none` means
the Go function returned `false` (no match, collection untouched). -/
def updateExistingItem (items : List PostmanItem) (route : APIRoute) :
    Option (List PostmanItem) :=
  match items with
  | [] => none
  | item :: rest =>
      if matchesRoute route item then
        some (convertRouteToPostmanItem route :: rest)
      else
        (updateExistingItem rest route).map (fun l => item :: l)

/-- Result of `markItemAsDeprecated`: `panicked` models the Go runtime panic
from `Name[:12]` on a matched item whose non-empty name is shorter than 12
bytes; `notFound` is Go's `false`; `marked` carries the mutated list. -/
inductive MarkResult : Type where
  | panicked : MarkResult
  | notFound : MarkResult
  | marked (items : List PostmanItem) : MarkResult

/-- client.go:408-418, the body run on the matched item: prefix the
description (unconditionally re-prefixing a non-empty one), then prefix the
name unless it already starts with `[DEPRECATED]`. The name guard slices
`Name[:12]`, which panics (`none`) when the non-empty name has fewer than 12
bytes. -/
def deprecateItem (item : PostmanItem) : Option PostmanItem :=
  let desc :=
    if item.description = "" then "[DEPRECATED] This endpoint is deprecated."
    else "[DEPRECATED] " ++ item.description
  if item.name ≠ "" then
    if item.name.data.length < 12 then none
    else if item.name.data.take 12 ≠ "[DEPRECATED]".data then
      some (PostmanItem.mk item.id ("[DEPRECATED] " ++ item.name) desc
        item.request item.response item.items)
    else
      some (PostmanItem.mk item.id item.name desc
        item.request item.response item.items)
  else
    some (PostmanItem.mk item.id item.name desc
      item.request item.response item.items)

/-- client.go:400-424 `markItemAsDeprecated`: linear scan of the TOP-LEVEL
item list; the first matching item is deprecated in place. -/
def markItemAsDeprecated (items : List PostmanItem) (route : APIRoute) :
    MarkResult :=
  match items with
  | [] => .notFound
  | item :: rest =>
      if matchesRoute route item then
        match deprecateItem item with
        | none => .panicked
        | some item2 => .marked (item2 :: rest)
      else
        match markItemAsDeprecated rest route with
        | .marked rest2 => .marked (item :: rest2)
        | .panicked => .panicked
        | .notFound => .notFound

/-! ## `updateCollectionWithRoutes` (client.go:249-283) -/

/-- client.go:257-261, one `newRoutes` entry: append the conversion to the
root item list and increment `itemsAdded`. -/
def stepNewRoute (st : List PostmanItem × PostmanUpdate) (route : APIRoute) :
    List PostmanItem × PostmanUpdate :=
  (st.1 ++ [convertRouteToPostmanItem route],
   { st.2 with itemsAdded := st.2.itemsAdded + 1 })

/-- client.go:264-273, one `modifiedRoutes` entry: replace the first match
and increment `itemsModified`, or — no match — append the conversion and
increment `itemsAdded`. -/
def stepModifiedRoute (st : List PostmanItem × PostmanUpdate)
    (route : APIRoute) : List PostmanItem × PostmanUpdate :=
  match updateExistingItem st.1 route with
  | some items2 =>
      (items2, { st.2 with itemsModified := st.2.itemsModified + 1 })
  | none =>
      (st.1 ++ [convertRouteToPostmanItem route],
       { st.2 with itemsAdded := st.2.itemsAdded + 1 })

/-- client.go:276-280, one `deletedRoutes` entry: deprecate the first match
and increment `itemsModified`; no match is a no-op. A panic inside
`markItemAsDeprecated` aborts the whole run (`none`). -/
def stepDeletedRoute (st : List PostmanItem × PostmanUpdate)
    (route : APIRoute) : Option (List PostmanItem × PostmanUpdate) :=
  match markItemAsDeprecated st.1 route with
  | .panicked => none
  | .notFound => some st
  | .marked items2 =>
      some (items2, { st.2 with itemsModified := st.2.itemsModified + 1 })

/-- Left fold of `stepDeletedRoute`, propagating the panic. -/
def runDeletedRoutes (st : List PostmanItem × PostmanUpdate) :
    List APIRoute → Option (List PostmanItem × PostmanUpdate)
  | [] => some st
  | route :: rest =>
      match stepDeletedRoute st route with
      | none => none
      | some st2 => runDeletedRoutes st2 rest

/-- client.go:249-283 `updateCollectionWithRoutes`: process `newRoutes`,
then `modifiedRoutes`, then `deletedRoutes`, starting from zeroed counters
and status `"success"`. `cid` is the configured collection id and `now` the
RFC3339 timestamp taken at entry; `none` models a Go runtime panic. -/
def updateCollectionWithRoutes (cid now : String)
    (collection : PostmanCollection) (analysis : AnalysisResponse) :
    Option (PostmanCollection × PostmanUpdate) :=
  let u0 : PostmanUpdate :=
    { collectionID := cid, status := "success", itemsAdded := 0,
      itemsModified := 0, itemsDeleted := 0, errorMessage := "",
      updatedAt := now }
  let st1 := analysis.newRoutes.foldl stepNewRoute (collection.items, u0)
  let st2 := analysis.modifiedRoutes.foldl stepModifiedRoute st1
  match runDeletedRoutes st2 analysis.deletedRoutes with
  | none => none
  | some st3 => some ({ collection with items := st3.1 }, st3.2)

/-! ## Existing-route extractor (analyzer, part_004:320-375) -/

/-- part_004:352-375 `extractPathFromURL`. On a non-empty raw URL the code
slices `path[0:11]` to test for the `{{baseUrl}}` prefix, which panics
(`none`) when the raw URL is shorter than 11 bytes; otherwise it strips the
prefix when present. With an empty raw URL it falls back to the path
segments: only lists of length > 1 are considered, a leading `{{baseUrl}}`
segment is skipped, and the next segment is returned behind a `/`; every
other case yields `"/"`. -/
def extractPathFromURL (url : PostmanURL) : Option String :=
  if url.raw ≠ "" then
    if url.raw.data.length < 11 then none
    else if url.raw.data.take 11 = "{{baseUrl}}".data then
      some (String.mk (url.raw.data.drop 11))
    else some url.raw
  else
    if url.path.length > 1 then
      let segs := if url.path.head? = some "{{baseUrl}}" then
          url.path.tail else url.path
      match segs with
      | [] => some "/"
      | p :: _ => some ("/" ++ p)
    else some "/"

/-- part_004:331-349 `extractRoutesFromItems`: depth-first walk emitting one
`ExistingRoute` per item that carries a request (checked FIRST, before the
children test), and recursing into items that have no request but a
non-empty children list. A panic in `extractPathFromURL` propagates. -/
def extractRoutesFromItems :
    List PostmanItem → List String → Option (List ExistingRoute)
  | [], _ => some []
  | PostmanItem.mk _ name desc req _ children :: rest, folderPath =>
      match req with
      | some r =>
          match extractPathFromURL r.url with
          | none => none
          | some p =>
              match extractRoutesFromItems rest folderPath with
              | none => none
              | some tailRoutes =>
                  some ({ method := r.method, path := p, name := name,
                          description := desc, folderPath := folderPath }
                        :: tailRoutes)
      | none =>
          if children.length > 0 then
            match extractRoutesFromItems children (folderPath ++ [name]) with
            | none => none
            | some nested =>
                match extractRoutesFromItems rest folderPath with
                | none => none
                | some tailRoutes => some (nested ++ tailRoutes)
          else
            extractRoutesFromItems rest folderPath

/-- part_004:321-328 `extractRoutesFromCollection`. -/
def extractRoutesFromCollection (collection : PostmanCollection) :
    Option (List ExistingRoute) :=
  extractRoutesFromItems collection.items []

/-! ## Post-oracle part of `AnalyzePR` (part_004:226-261, analyzer.go) -/

/-- part_004:316-318 `hasAPIChanges`. -/
def hasAPIChanges (resp : AnalysisResponse) : Bool :=
  resp.newRoutes.length > 0 || resp.modifiedRoutes.length > 0 ||
    resp.deletedRoutes.length > 0

/-- part_004:226-261 (identical in analyzer.go:312-347): what `AnalyzePR`
does with the oracle's response once `claudeClient.AnalyzePR` has returned
it. `updateResult` is the outcome of `postmanClient.UpdateCollection`
(`Except` carries the error message); `now` is the RFC3339 timestamp. Only
the `postmanUpdate` field of the oracle's response is ever assigned. -/
def finishAnalyzePR (analysisResp : AnalysisResponse)
    (updateResult : Except String PostmanUpdate) (now : String) :
    AnalysisResponse :=
  if hasAPIChanges analysisResp then
    match updateResult with
    | .error msg =>
        { analysisResp with postmanUpdate :=
            { collectionID := "", status := "error", itemsAdded := 0,
              itemsModified := 0, itemsDeleted := 0, errorMessage := msg,
              updatedAt := now } }
    | .ok u => { analysisResp with postmanUpdate := u }
  else
    { analysisResp with postmanUpdate :=
        { collectionID := "", status := "skipped", itemsAdded := 0,
          itemsModified := 0, itemsDeleted := 0, errorMessage := "",
          updatedAt := now } }

/-! ## Session store (token_manager.go) -/

/-- token_manager.go:15: `TokenTTL = 1 * time.Hour`, in nanoseconds on the
integer timeline. -/
def TokenTTL : Int := 3600000000000

/-- `models.UserSession` (analysis.go:76-83) with `time.Time` as `Int`. -/
structure UserSession where
  claudeAPIKey : String
  postmanAPIKey : String
  postmanWorkspaceID : String
  postmanCollectionID : String
  createdAt : Int
  expiresAt : Int
deriving DecidableEq

/-- The `sessions map[string]*models.UserSession` field. -/
def SessionMap : Type := String → Option UserSession

/-- token_manager.go:39-62 `CreateSession`, with the freshly generated token
and the current time passed explicitly: store a session whose expiry is
`now + TokenTTL` under the token. -/
def createSession (m : SessionMap) (token : String)
    (claudeKey postmanKey workspaceID collectionID : String) (now : Int) :
    SessionMap :=
  fun t =>
    if t = token then
      some { claudeAPIKey := claudeKey, postmanAPIKey := postmanKey,
             postmanWorkspaceID := workspaceID,
             postmanCollectionID := collectionID,
             createdAt := now, expiresAt := now + TokenTTL }
    else m t

/-- token_manager.go:64-78 `GetSession` at time `now`: a stored session is
reported absent once `time.Now().After(session.ExpiresAt)`, i.e. when
`now > expiresAt`, even if no cleanup sweep has run. -/
def getSession (m : SessionMap) (now : Int) (token : String) :
    Option UserSession :=
  match m token with
  | none => none
  | some s => if now > s.expiresAt then none else some s

/-- token_manager.go:114-134 `performCleanup` at time `now`: drop every
stored session with `now > expiresAt` (the sweep the claims say is not
needed for read-time expiry). -/
def performCleanup (m : SessionMap) (now : Int) : SessionMap :=
  fun t =>
    match m t with
    | none => none
    | some s => if now > s.expiresAt then none else some s

/-! ## Auxiliary notions and lemmas -/

/-- All nodes of a collection forest, nested ones included: the domain over
which the spec's "searches the full tree" quantifies. -/
def allTreeItems : List PostmanItem → List PostmanItem
  | [] => []
  | PostmanItem.mk i n d req resp children :: rest =>
      PostmanItem.mk i n d req resp children ::
        (allTreeItems children ++ allTreeItems rest)

lemma mem_allTreeItems_of_mem (items : List PostmanItem) (it : PostmanItem)
    (h : it ∈ items) : it ∈ allTreeItems items := by
  induction items with
  | nil => cases h
  | cons head rest ih =>
      cases head with
      | mk i n d req resp children =>
          rcases List.mem_cons.mp h with h1 | h1
          · rw [allTreeItems, h1]
            exact List.mem_cons_self _ _
          · rw [allTreeItems]
            exact List.mem_cons_of_mem _
              (List.mem_append.mpr (Or.inr (ih h1)))

lemma updateExistingItem_eq_none (route : APIRoute) :
    ∀ items : List PostmanItem,
      (∀ it ∈ items, matchesRoute route it = false) →
      updateExistingItem items route = none := by
  intro items
  induction items with
  | nil => intro _; rfl
  | cons item rest ih =>
      intro h
      have h1 : matchesRoute route item = false :=
        h item (List.mem_cons_self _ _)
      have h2 := ih (fun it hit => h it (List.mem_cons_of_mem _ hit))
      simp [updateExistingItem, h1, h2]

lemma markItemAsDeprecated_eq_notFound (route : APIRoute) :
    ∀ items : List PostmanItem,
      (∀ it ∈ items, matchesRoute route it = false) →
      markItemAsDeprecated items route = MarkResult.notFound := by
  intro items
  induction items with
  | nil => intro _; rfl
  | cons item rest ih =>
      intro h
      have h1 : matchesRoute route item = false :=
        h item (List.mem_cons_self _ _)
      have h2 := ih (fun it hit => h it (List.mem_cons_of_mem _ hit))
      simp [markItemAsDeprecated, h1, h2]

lemma updateExistingItem_first_match (route : APIRoute) :
    ∀ (pre : List PostmanItem) (item : PostmanItem) (post : List PostmanItem),
      (∀ it ∈ pre, matchesRoute route it = false) →
      matchesRoute route item = true →
      updateExistingItem (pre ++ item :: post) route =
        some (pre ++ convertRouteToPostmanItem route :: post) := by
  intro pre
  induction pre with
  | nil =>
      intro item post _ hm
      simp [updateExistingItem, hm]
  | cons p rest ih =>
      intro item post h hm
      have hp : matchesRoute route p = false := h p (List.mem_cons_self _ _)
      have h2 := ih item post (fun it hit => h it (List.mem_cons_of_mem _ hit)) hm
      simp [updateExistingItem, hp, h2]

lemma markItemAsDeprecated_first_match (route : APIRoute) :
    ∀ (pre : List PostmanItem) (item : PostmanItem) (post : List PostmanItem),
      (∀ it ∈ pre, matchesRoute route it = false) →
      matchesRoute route item = true →
      markItemAsDeprecated (pre ++ item :: post) route =
        (match deprecateItem item with
         | none => MarkResult.panicked
         | some item2 => MarkResult.marked (pre ++ item2 :: post)) := by
  intro pre
  induction pre with
  | nil =>
      intro item post _ hm
      cases hd : deprecateItem item <;>
        simp [markItemAsDeprecated, hm, hd]
  | cons p rest ih =>
      intro item post h hm
      have hp : matchesRoute route p = false := h p (List.mem_cons_self _ _)
      have h2 := ih item post (fun it hit => h it (List.mem_cons_of_mem _ hit)) hm
      cases hd : deprecateItem item <;> rw [hd] at h2 <;>
        simp [markItemAsDeprecated, hp, h2]

lemma stepNewRoute_itemsDeleted (st : List PostmanItem × PostmanUpdate)
    (route : APIRoute) :
    (stepNewRoute st route).2.itemsDeleted = st.2.itemsDeleted := rfl

lemma foldl_stepNewRoute_itemsDeleted :
    ∀ (rs : List APIRoute) (st : List PostmanItem × PostmanUpdate),
      (rs.foldl stepNewRoute st).2.itemsDeleted = st.2.itemsDeleted := by
  intro rs
  induction rs with
  | nil => intro _; rfl
  | cons r rest ih =>
      intro st
      rw [List.foldl_cons, ih, stepNewRoute_itemsDeleted]

lemma stepModifiedRoute_itemsDeleted (st : List PostmanItem × PostmanUpdate)
    (route : APIRoute) :
    (stepModifiedRoute st route).2.itemsDeleted = st.2.itemsDeleted := by
  cases h : updateExistingItem st.1 route <;> simp [stepModifiedRoute, h]

lemma foldl_stepModifiedRoute_itemsDeleted :
    ∀ (rs : List APIRoute) (st : List PostmanItem × PostmanUpdate),
      (rs.foldl stepModifiedRoute st).2.itemsDeleted = st.2.itemsDeleted := by
  intro rs
  induction rs with
  | nil => intro _; rfl
  | cons r rest ih =>
      intro st
      rw [List.foldl_cons, ih, stepModifiedRoute_itemsDeleted]

lemma stepDeletedRoute_itemsDeleted (st st2 : List PostmanItem × PostmanUpdate)
    (route : APIRoute) (h : stepDeletedRoute st route = some st2) :
    st2.2.itemsDeleted = st.2.itemsDeleted := by
  cases hm : markItemAsDeprecated st.1 route <;>
    simp [stepDeletedRoute, hm] at h <;> simp [← h]

lemma runDeletedRoutes_itemsDeleted :
    ∀ (rs : List APIRoute) (st st2 : List PostmanItem × PostmanUpdate),
      runDeletedRoutes st rs = some st2 →
      st2.2.itemsDeleted = st.2.itemsDeleted := by
  intro rs
  induction rs with
  | nil =>
      intro st st2 h
      simp [runDeletedRoutes] at h
      rw [← h]
  | cons r rest ih =>
      intro st st2 h
      simp only [runDeletedRoutes] at h
      cases hs : stepDeletedRoute st r with
      | none => rw [hs] at h; cases h
      | some st1 =>
          rw [hs] at h
          rw [ih st1 st2 h, stepDeletedRoute_itemsDeleted st st1 r hs]

/-- Two successive applications of the same deletion `RouteChange` to the
same tree (client.go:400-424 run twice, the second on the first's output;
a first-pass panic or miss short-circuits). -/
def markDeletedTwice (items : List PostmanItem) (route : APIRoute) :
    MarkResult :=
  match markItemAsDeprecated items route with
  | .marked l => markItemAsDeprecated l route
  | r => r

/-! ## Concrete sample inputs -/

/-- `GET /api/v1/users`, the route of spec §8's round-trip property. -/
def routeUsers : APIRoute :=
  { method := "GET", path := "/api/v1/users", description := "",
    parameters := [], requestBody := [], response := [], headers := [],
    deprecated := false }

/-- `POST /api/v1/orders`, a route matching nothing in the sample trees. -/
def routeOrders : APIRoute :=
  { method := "POST", path := "/api/v1/orders", description := "",
    parameters := [], requestBody := [], response := [], headers := [],
    deprecated := false }

/-- A route with the empty path. -/
def routeEmptyPath : APIRoute :=
  { method := "GET", path := "", description := "", parameters := [],
    requestBody := [], response := [], headers := [], deprecated := false }

/-- A route with path `"/"`. -/
def routeSlashPath : APIRoute :=
  { method := "GET", path := "/", description := "", parameters := [],
    requestBody := [], response := [], headers := [], deprecated := false }

/-- The converted item for `GET /api/v1/users`. -/
def itemUsers : PostmanItem := convertRouteToPostmanItem routeUsers

/-- A folder whose only child is `itemUsers`. -/
def folderUsers : PostmanItem :=
  PostmanItem.mk "" "Users folder" "" none [] [itemUsers]

/-- A collection whose only root item is the folder `folderUsers`. -/
def collWithFolder : PostmanCollection :=
  { id := "col1", name := "c", description := "", items := [folderUsers] }

/-- An all-zero mutation summary (the zero value of `models.PostmanUpdate`). -/
def zeroUpdate : PostmanUpdate :=
  { collectionID := "", status := "", itemsAdded := 0, itemsModified := 0,
    itemsDeleted := 0, errorMessage := "", updatedAt := "" }

/-- A change set whose only entry is `GET /api/v1/users` under
`modifiedRoutes`. -/
def singleModifiedAnalysis : AnalysisResponse :=
  { newRoutes := [], modifiedRoutes := [routeUsers], deletedRoutes := [],
    summary := "", confidence := 1, postmanUpdate := zeroUpdate }

/-- A hand-written request for `GET {{baseUrl}}/api/v1/users`. -/
def reqUsers : PostmanRequest :=
  { method := "GET", header := [], body := none,
    url := { raw := "{{baseUrl}}/api/v1/users", host := ["{{baseUrl}}"],
             path := ["{{baseUrl}}", "api/v1/users"], query := [] },
    description := "" }

/-- A stored item for `GET /api/v1/users` with a pre-existing description. -/
def plainItemUsers : PostmanItem :=
  PostmanItem.mk "id1" "GET /api/v1/users" "Lists users" (some reqUsers) [] []

/-- An item whose request matches `GET /api/v1/users` but whose display name
is the single character `"x"`: matched via the URL, its name then hits the
`Name[:12]` slice. -/
def shortNameItem : PostmanItem :=
  PostmanItem.mk "" "x" "" (some reqUsers) [] []

/-- A request for `GET {{baseUrl}}/x`. -/
def hybridReq : PostmanRequest :=
  { method := "GET", header := [], body := none,
    url := { raw := "{{baseUrl}}/x", host := ["{{baseUrl}}"],
             path := ["{{baseUrl}}", "x"], query := [] },
    description := "" }

/-- An item that carries a request AND a non-empty children list. -/
def hybridItem : PostmanItem :=
  PostmanItem.mk "" "H" "" (some hybridReq) [] [itemUsers]

/-! ## Claim theorems -/

/-- C1, counterexample: the nested item `itemUsers` inside the folder
`folderUsers` matches the candidate key of `GET /api/v1/users`, yet neither
`updateExistingItem` nor `markItemAsDeprecated` finds it — the search does
not descend into folders, so the claimed full-tree depth-first matching is
false: the modification degrades to an addition (`itemsAdded` 1,
`itemsModified` 0) instead of replacing the nested match. -/
theorem C1_counterexample :
    matchesRoute routeUsers itemUsers = true ∧
    folderUsers.items = [itemUsers] ∧
    updateExistingItem [folderUsers] routeUsers = none ∧
    markItemAsDeprecated [folderUsers] routeUsers = MarkResult.notFound ∧
    (updateCollectionWithRoutes "col1" "t0" collWithFolder
        singleModifiedAnalysis).map
        (fun p => (p.2.itemsAdded, p.2.itemsModified)) = some (1, 0) :=
  ⟨by decide, rfl, rfl, rfl, rfl⟩

/-- C1 (amended): for every `RouteChange`, `updateExistingItem` and
`markItemAsDeprecated` search only the TOP-LEVEL item list, linearly and in
order: when no root-level item matches — matching nested items
notwithstanding — they report no match, and the first root-level match in
list order is the one replaced (respectively deprecated) in place. -/
theorem C1_matching_is_top_level_first_match (route : APIRoute) :
    (∀ items : List PostmanItem,
      (∀ it ∈ items, matchesRoute route it = false) →
      updateExistingItem items route = none ∧
        markItemAsDeprecated items route = MarkResult.notFound) ∧
    (∀ (pre : List PostmanItem) (item : PostmanItem)
        (post : List PostmanItem),
      (∀ it ∈ pre, matchesRoute route it = false) →
      matchesRoute route item = true →
      updateExistingItem (pre ++ item :: post) route =
          some (pre ++ convertRouteToPostmanItem route :: post) ∧
        markItemAsDeprecated (pre ++ item :: post) route =
          (match deprecateItem item with
           | none => MarkResult.panicked
           | some item2 => MarkResult.marked (pre ++ item2 :: post))) :=
  ⟨fun items h =>
    ⟨updateExistingItem_eq_none route items h,
     markItemAsDeprecated_eq_notFound route items h⟩,
   fun pre item post h hm =>
    ⟨updateExistingItem_first_match route pre item post h hm,
     markItemAsDeprecated_first_match route pre item post h hm⟩⟩

/-- C1, witness: the amended theorem applied to the folder tree (no
root-level match, nested match ignored) and to a root-level list whose
second entry is the first match. -/
theorem C1_witness :
    (updateExistingItem [folderUsers] routeUsers = none ∧
      markItemAsDeprecated [folderUsers] routeUsers = MarkResult.notFound) ∧
    (updateExistingItem ([folderUsers] ++ itemUsers :: []) routeUsers =
        some ([folderUsers] ++ convertRouteToPostmanItem routeUsers :: []) ∧
      markItemAsDeprecated ([folderUsers] ++ itemUsers :: []) routeUsers =
        (match deprecateItem itemUsers with
         | none => MarkResult.panicked
         | some item2 => MarkResult.marked ([folderUsers] ++ item2 :: []))) :=
  ⟨(C1_matching_is_top_level_first_match routeUsers).1 [folderUsers]
      (by decide),
   (C1_matching_is_top_level_first_match routeUsers).2 [folderUsers]
      itemUsers [] (by decide) (by decide)⟩

lemma strData_append (a b : String) : (a ++ b).data = a.data ++ b.data := rfl

lemma depTag_prepend_ne_empty (s : String) : ("[DEPRECATED] " ++ s) ≠ "" := by
  intro h
  have h2 := congrArg (fun t => t.data.length) h
  simp only [strData_append, List.length_append] at h2
  simp at h2

/-- C2, counterexample: deprecating the freshly converted
`GET /api/v1/users` item twice leaves a single `[DEPRECATED]` prefix on the
name but TWO on the description — the description branch has no
already-tagged guard, so the claimed idempotence on the description is
false. -/
theorem C2_counterexample :
    (match markDeletedTwice [itemUsers] routeUsers with
     | .marked (item :: _) => some (item.name, item.description)
     | _ => none) =
      some ("[DEPRECATED] " ++ "GET /api/v1/users",
        "[DEPRECATED] " ++ "[DEPRECATED] This endpoint is deprecated.") :=
  rfl

/-- C2 (amended): applying the same deletion twice to a one-item tree whose
item is matched through its request and whose name is untagged and at least
12 bytes long yields exactly one `[DEPRECATED]` prefix on the name (the
name branch is guarded) but stacks a SECOND `[DEPRECATED]` prefix on the
description (the description branch re-prefixes unconditionally). -/
theorem C2_second_deletion_double_prefixes_description
    (item : PostmanItem) (route : APIRoute) (req : PostmanRequest)
    (hreq : item.request = some req)
    (hm : req.method = route.method)
    (hurl : req.url.raw = "{{baseUrl}}" ++ route.path)
    (hlen : 12 ≤ item.name.data.length)
    (hpre : item.name.data.take 12 ≠ "[DEPRECATED]".data) :
    markDeletedTwice [item] route =
      MarkResult.marked
        [PostmanItem.mk item.id ("[DEPRECATED] " ++ item.name)
          ("[DEPRECATED] " ++
            (if item.description = "" then
              "[DEPRECATED] This endpoint is deprecated."
             else "[DEPRECATED] " ++ item.description))
          item.request item.response item.items] := by
  cases item with
  | mk i n d r0 resp ch =>
      have hr0 : r0 = some req := hreq
      subst hr0
      simp only [PostmanItem.name] at hlen hpre
      simp only [PostmanItem.id, PostmanItem.name, PostmanItem.description,
        PostmanItem.request, PostmanItem.response, PostmanItem.items]
      have hmatch :
          matchesRoute route (PostmanItem.mk i n d (some req) resp ch)
            = true := by
        simp [matchesRoute, PostmanItem.name, PostmanItem.request, hm, hurl]
      have hn0 : n ≠ "" := by
        intro h
        subst h
        simp at hlen
      have hnl : ¬ (n.data.length < 12) := by omega
      have hnlen : ¬ (n.length < 12) := by
        have he : n.length = n.data.length := rfl
        omega
      set d1 : String :=
        if d = "" then "[DEPRECATED] This endpoint is deprecated."
        else "[DEPRECATED] " ++ d with hd1
      have hdep1 :
          deprecateItem (PostmanItem.mk i n d (some req) resp ch) =
            some (PostmanItem.mk i ("[DEPRECATED] " ++ n) d1
              (some req) resp ch) := by
        simp [deprecateItem, PostmanItem.name, PostmanItem.description,
          PostmanItem.id, PostmanItem.request, PostmanItem.response,
          PostmanItem.items, hn0, hnl, hnlen, hpre, hd1]
      have hmark1 :
          markItemAsDeprecated [PostmanItem.mk i n d (some req) resp ch]
              route =
            MarkResult.marked
              [PostmanItem.mk i ("[DEPRECATED] " ++ n) d1
                (some req) resp ch] := by
        simp [markItemAsDeprecated, hmatch, hdep1]
      have hmatch2 :
          matchesRoute route
              (PostmanItem.mk i ("[DEPRECATED] " ++ n) d1 (some req) resp ch)
            = true := by
        simp [matchesRoute, PostmanItem.name, PostmanItem.request, hm, hurl]
      have hdata1 : ("[DEPRECATED] " ++ n).data =
          "[DEPRECATED] ".data ++ n.data := strData_append _ _
      have hn1 : ("[DEPRECATED] " ++ n) ≠ "" := depTag_prepend_ne_empty n
      have hnl1 : ¬ (("[DEPRECATED] " ++ n).data.length < 12) := by
        rw [hdata1]
        simp only [List.length_append]
        have h13 : "[DEPRECATED] ".data.length = 13 := by decide
        omega
      have hnlen1 : ¬ (("[DEPRECATED] " ++ n).length < 12) := by
        have he : ("[DEPRECATED] " ++ n).length =
            ("[DEPRECATED] " ++ n).data.length := rfl
        omega
      have hpre1 : ("[DEPRECATED] " ++ n).data.take 12 =
          "[DEPRECATED]".data := by
        rw [hdata1]
        rw [List.take_append_of_le_length (by decide)]
        decide
      have hd1ne : d1 ≠ "" := by
        rw [hd1]
        by_cases hd : d = ""
        · simp [hd]
        · simp only [hd, if_false]
          exact depTag_prepend_ne_empty d
      have hdep2 :
          deprecateItem
              (PostmanItem.mk i ("[DEPRECATED] " ++ n) d1 (some req) resp
                ch) =
            some (PostmanItem.mk i ("[DEPRECATED] " ++ n)
              ("[DEPRECATED] " ++ d1) (some req) resp ch) := by
        simp [deprecateItem, PostmanItem.name, PostmanItem.description,
          PostmanItem.id, PostmanItem.request, PostmanItem.response,
          PostmanItem.items, hn1, hnl1, hnlen1, hpre1, hd1ne]
      have hmark2 :
          markItemAsDeprecated
              [PostmanItem.mk i ("[DEPRECATED] " ++ n) d1 (some req) resp
                ch] route =
            MarkResult.marked
              [PostmanItem.mk i ("[DEPRECATED] " ++ n)
                ("[DEPRECATED] " ++ d1) (some req) resp ch] := by
        simp [markItemAsDeprecated, hmatch2, hdep2]
      rw [markDeletedTwice, hmark1]
      exact hmark2

/-- C2, witness: the amended theorem applied to the stored
`GET /api/v1/users` item with its request key and 17-byte untagged name. -/
theorem C2_witness :
    markDeletedTwice [plainItemUsers] routeUsers =
      MarkResult.marked
        [PostmanItem.mk plainItemUsers.id
          ("[DEPRECATED] " ++ plainItemUsers.name)
          ("[DEPRECATED] " ++
            (if plainItemUsers.description = "" then
              "[DEPRECATED] This endpoint is deprecated."
             else "[DEPRECATED] " ++ plainItemUsers.description))
          plainItemUsers.request plainItemUsers.response
          plainItemUsers.items] :=
  C2_second_deletion_double_prefixes_description plainItemUsers routeUsers
    reqUsers (by rfl) (by rfl) (by rfl) (by decide) (by decide)

/-- C3: totality fails — the code panics on short strings. A non-empty raw
URL of fewer than 11 bytes makes `extractPathFromURL` slice `path[0:11]`
out of range, and a matched item whose non-empty name has fewer than 12
bytes makes `markItemAsDeprecated` slice `Name[:12]` out of range (the item
IS matched, via its request key, as `updateExistingItem` on the same tree
shows). -/
theorem C3_short_string_panic :
    extractPathFromURL { raw := "x", host := [], path := [], query := [] }
        = none ∧
    matchesRoute routeUsers shortNameItem = true ∧
    markItemAsDeprecated [shortNameItem] routeUsers =
        MarkResult.panicked ∧
    updateExistingItem [shortNameItem] routeUsers =
        some [convertRouteToPostmanItem routeUsers] :=
  ⟨rfl, by decide, rfl, rfl⟩

/-- C4, counterexample: `hybridItem` carries BOTH a request and a non-empty
children list; the Extractor emits it as a route (method `GET`, path `/x`)
and never descends into its children — the claim says any item with
children is treated as a folder, recursed into and not emitted. -/
theorem C4_counterexample :
    hybridItem.request = some hybridReq ∧
    hybridItem.items = [itemUsers] ∧
    extractRoutesFromItems [hybridItem] [] =
      some [{ method := "GET", path := "/x", name := "H",
              description := "", folderPath := [] }] := by
  refine ⟨rfl, rfl, ?_⟩
  simp only [extractRoutesFromItems, hybridItem, hybridReq,
    extractPathFromURL]
  norm_num
  decide

/-- C4 (amended): the Extractor checks the request FIRST: an item with a
request is emitted as a route and its children contribute nothing, even
when the children list is non-empty; only an item with no request and a
non-empty children list is recursed into as a folder. -/
theorem C4_request_checked_before_children
    (i n d : String) (req : PostmanRequest) (resp : List PostmanResponse)
    (children rest : List PostmanItem) (fp : List String) :
    (extractRoutesFromItems
        (PostmanItem.mk i n d (some req) resp children :: rest) fp =
      extractRoutesFromItems
        (PostmanItem.mk i n d (some req) resp [] :: rest) fp) ∧
    (children ≠ [] →
      extractRoutesFromItems
          (PostmanItem.mk i n d none resp children :: rest) fp =
        match extractRoutesFromItems children (fp ++ [n]),
            extractRoutesFromItems rest fp with
        | some nested, some tailRoutes => some (nested ++ tailRoutes)
        | _, _ => none) := by
  constructor
  · simp only [extractRoutesFromItems]
  · intro hch
    have hlen : children.length > 0 := List.length_pos.mpr hch
    simp only [extractRoutesFromItems, hlen, if_true]
    cases extractRoutesFromItems children (fp ++ [n]) <;>
      cases extractRoutesFromItems rest fp <;> rfl

/-- C4, witness: the amended theorem applied to the hybrid
request-plus-children item and to a plain folder. -/
theorem C4_witness :
    (extractRoutesFromItems
        [PostmanItem.mk "" "H" "" (some hybridReq) [] [itemUsers]] [] =
      extractRoutesFromItems
        [PostmanItem.mk "" "H" "" (some hybridReq) [] []] []) ∧
    (extractRoutesFromItems
        [PostmanItem.mk "" "F" "" none [] [itemUsers]] [] =
      match extractRoutesFromItems [itemUsers] ([] ++ ["F"]),
          extractRoutesFromItems ([] : List PostmanItem) [] with
      | some nested, some tailRoutes => some (nested ++ tailRoutes)
      | _, _ => none) :=
  ⟨(C4_request_checked_before_children "" "H" "" hybridReq [] [itemUsers]
      [] []).1,
   (C4_request_checked_before_children "" "F" "" hybridReq [] [itemUsers]
      [] []).2 (by simp)⟩

/-- C5, counterexample: a route with the empty path does convert to
`pathSegments = ["{{baseUrl}}"]`, but extracting the converted item yields
path `""`, not the claimed `"/"` (the raw URL is exactly `{{baseUrl}}`, so
stripping the prefix leaves the empty string and the `"/"` fallback is
never reached). -/
theorem C5_counterexample :
    ((convertRouteToPostmanItem routeEmptyPath).request).map
        (fun r => r.url.path) = some ["{{baseUrl}}"] ∧
    (extractRoutesFromItems [convertRouteToPostmanItem routeEmptyPath]
        []).map (fun l => l.map ExistingRoute.path) = some [""] ∧
    (extractRoutesFromItems [convertRouteToPostmanItem routeEmptyPath]
        []).map (fun l => l.map ExistingRoute.path) ≠ some ["/"] := by
  have hx : extractRoutesFromItems
      [convertRouteToPostmanItem routeEmptyPath] [] =
      some [{ method := "GET", path := "", name := "GET ",
              description := "", folderPath := [] }] := by
    simp only [extractRoutesFromItems, convertRouteToPostmanItem,
      extractPathFromURL, routeEmptyPath]
    norm_num
    decide
  refine ⟨rfl, ?_, ?_⟩ <;> rw [hx] <;> decide

/-- C5 (amended): paths `""` and `"/"` both convert to
`pathSegments = ["{{baseUrl}}"]`; extracting the converted item yields path
`"/"` for the route with path `"/"` but path `""` for the route with the
empty path. -/
theorem C5_empty_path_edge_case :
    ((convertRouteToPostmanItem routeEmptyPath).request).map
        (fun r => r.url.path) = some ["{{baseUrl}}"] ∧
    ((convertRouteToPostmanItem routeSlashPath).request).map
        (fun r => r.url.path) = some ["{{baseUrl}}"] ∧
    (extractRoutesFromItems [convertRouteToPostmanItem routeEmptyPath]
        []).map (fun l => l.map ExistingRoute.path) = some [""] ∧
    (extractRoutesFromItems [convertRouteToPostmanItem routeSlashPath]
        []).map (fun l => l.map ExistingRoute.path) = some ["/"] := by
  refine ⟨rfl, rfl, ?_, ?_⟩ <;>
    · simp only [extractRoutesFromItems, convertRouteToPostmanItem,
        extractPathFromURL, routeEmptyPath, routeSlashPath]
      norm_num
      decide

/-- C6: round-trip for `/api/v1/users` — conversion produces
`pathSegments = ["{{baseUrl}}", "api/v1/users"]` and raw URL
`{{baseUrl}}/api/v1/users`, and extracting a tree holding only the
converted item yields exactly one route whose path is `/api/v1/users`. -/
theorem C6_path_round_trip :
    ((convertRouteToPostmanItem routeUsers).request).map
        (fun r => (r.url.path, r.url.raw)) =
      some (["{{baseUrl}}", "api/v1/users"], "{{baseUrl}}/api/v1/users") ∧
    (extractRoutesFromItems [convertRouteToPostmanItem routeUsers] []).map
        (fun l => l.map ExistingRoute.path) = some ["/api/v1/users"] := by
  refine ⟨rfl, ?_⟩
  simp only [extractRoutesFromItems, convertRouteToPostmanItem,
    extractPathFromURL, routeUsers]
  norm_num
  decide

/-- A stored one-request collection used by witnesses. -/
def collUsers : PostmanCollection :=
  { id := "col2", name := "c2", description := "",
    items := [plainItemUsers] }

/-- C7: a `modifiedRoutes` entry whose key matches no item anywhere in the
tree degrades to an addition — the freshly converted item is appended to
the root list, `itemsAdded` ends at 1 and `itemsModified` at 0. -/
theorem C7_unmatched_modification_degrades_to_addition
    (cid now : String) (coll : PostmanCollection) (route : APIRoute)
    (s : String) (conf : Rat) (u : PostmanUpdate)
    (h : ∀ it ∈ allTreeItems coll.items, matchesRoute route it = false) :
    updateCollectionWithRoutes cid now coll
        { newRoutes := [], modifiedRoutes := [route], deletedRoutes := [],
          summary := s, confidence := conf, postmanUpdate := u } =
      some ({ coll with
                items := coll.items ++ [convertRouteToPostmanItem route] },
            { collectionID := cid, status := "success", itemsAdded := 1,
              itemsModified := 0, itemsDeleted := 0, errorMessage := "",
              updatedAt := now }) := by
  have h1 : ∀ it ∈ coll.items, matchesRoute route it = false :=
    fun it hit => h it (mem_allTreeItems_of_mem _ _ hit)
  have h2 := updateExistingItem_eq_none route coll.items h1
  simp [updateCollectionWithRoutes, stepModifiedRoute, runDeletedRoutes, h2]

/-- C7, witness: modifying `POST /api/v1/orders` against a tree holding only
`GET /api/v1/users` appends the converted item and counts it as added. -/
theorem C7_witness :
    updateCollectionWithRoutes "col2" "t0" collUsers
        { newRoutes := [], modifiedRoutes := [routeOrders],
          deletedRoutes := [], summary := "", confidence := 1,
          postmanUpdate := zeroUpdate } =
      some ({ collUsers with
                items := collUsers.items ++
                  [convertRouteToPostmanItem routeOrders] },
            { collectionID := "col2", status := "success", itemsAdded := 1,
              itemsModified := 0, itemsDeleted := 0, errorMessage := "",
              updatedAt := "t0" }) :=
  C7_unmatched_modification_degrades_to_addition "col2" "t0" collUsers
    routeOrders "" 1 zeroUpdate
    (by simp [allTreeItems, collUsers, plainItemUsers]; decide)

/-- C8: (1) every summary the reconciliation produces has
`itemsDeleted = 0` — the counter is never incremented under the
soft-deprecation policy; (2) a `deletedRoutes` entry matching nothing in
the tree is a no-op: the item list, every counter and every summary field
are returned unchanged, with no error. -/
theorem C8_items_deleted_zero_and_unmatched_deletion_noop :
    (∀ (cid now : String) (coll : PostmanCollection)
        (a : AnalysisResponse) (c : PostmanCollection)
        (u : PostmanUpdate),
        updateCollectionWithRoutes cid now coll a = some (c, u) →
        u.itemsDeleted = 0) ∧
    (∀ (items : List PostmanItem) (u : PostmanUpdate) (route : APIRoute),
        (∀ it ∈ allTreeItems items, matchesRoute route it = false) →
        stepDeletedRoute (items, u) route = some (items, u)) := by
  constructor
  · intro cid now coll a c u h
    simp only [updateCollectionWithRoutes] at h
    cases hr : runDeletedRoutes
        (a.modifiedRoutes.foldl stepModifiedRoute
          (a.newRoutes.foldl stepNewRoute
            (coll.items,
              { collectionID := cid, status := "success", itemsAdded := 0,
                itemsModified := 0, itemsDeleted := 0, errorMessage := "",
                updatedAt := now })))
        a.deletedRoutes with
    | none => rw [hr] at h; cases h
    | some st3 =>
        rw [hr] at h
        simp only [Option.some.injEq, Prod.mk.injEq] at h
        have h3 := runDeletedRoutes_itemsDeleted _ _ _ hr
        rw [foldl_stepModifiedRoute_itemsDeleted,
          foldl_stepNewRoute_itemsDeleted] at h3
        rw [← h.2, h3]
  · intro items u route h
    have h1 : ∀ it ∈ items, matchesRoute route it = false :=
      fun it hit => h it (mem_allTreeItems_of_mem _ _ hit)
    have h2 := markItemAsDeprecated_eq_notFound route items h1
    simp [stepDeletedRoute, h2]

/-- C8, witness: the summary computed for the folder tree and the
single-modification change set has `itemsDeleted = 0`, and deleting the
unmatched `POST /api/v1/orders` leaves the one-item tree and counters
untouched. -/
theorem C8_witness :
    ({ collectionID := "col1", status := "success", itemsAdded := 1,
       itemsModified := 0, itemsDeleted := 0, errorMessage := "",
       updatedAt := "t0" } : PostmanUpdate).itemsDeleted = 0 ∧
    stepDeletedRoute ([plainItemUsers], zeroUpdate) routeOrders =
      some ([plainItemUsers], zeroUpdate) :=
  ⟨C8_items_deleted_zero_and_unmatched_deletion_noop.1 "col1" "t0"
      collWithFolder singleModifiedAnalysis
      { collWithFolder with
          items := collWithFolder.items ++
            [convertRouteToPostmanItem routeUsers] }
      { collectionID := "col1", status := "success", itemsAdded := 1,
        itemsModified := 0, itemsDeleted := 0, errorMessage := "",
        updatedAt := "t0" } rfl,
   C8_items_deleted_zero_and_unmatched_deletion_noop.2 [plainItemUsers]
      zeroUpdate routeOrders
      (by simp [allTreeItems, plainItemUsers]; decide)⟩

/-- C9: whatever the documentation-store write outcome — success with any
summary, or failure with any error message — and likewise on the
no-changes path, the oracle's confidence, summary and route lists appear
unchanged in the final response; only `postmanUpdate` is assigned. -/
theorem C9_confidence_and_summary_pass_through
    (analysisResp : AnalysisResponse)
    (updateResult : Except String PostmanUpdate) (now : String) :
    (finishAnalyzePR analysisResp updateResult now).confidence =
        analysisResp.confidence ∧
    (finishAnalyzePR analysisResp updateResult now).summary =
        analysisResp.summary ∧
    (finishAnalyzePR analysisResp updateResult now).newRoutes =
        analysisResp.newRoutes ∧
    (finishAnalyzePR analysisResp updateResult now).modifiedRoutes =
        analysisResp.modifiedRoutes ∧
    (finishAnalyzePR analysisResp updateResult now).deletedRoutes =
        analysisResp.deletedRoutes := by
  cases h : hasAPIChanges analysisResp <;> cases updateResult <;>
    simp [finishAnalyzePR, h]

/-- C10: a session stored at `now` expires at `now + TokenTTL`: a lookup
strictly before that instant returns the stored credential bundle, and a
lookup strictly after it reports the session absent, with no cleanup sweep
involved. -/
theorem C10_session_expiry (m : SessionMap)
    (token ck pk wid cid : String) (now t : Int) :
    (t < now + TokenTTL →
      getSession (createSession m token ck pk wid cid now) t token =
        some { claudeAPIKey := ck, postmanAPIKey := pk,
               postmanWorkspaceID := wid, postmanCollectionID := cid,
               createdAt := now, expiresAt := now + TokenTTL }) ∧
    (now + TokenTTL < t →
      getSession (createSession m token ck pk wid cid now) t token =
        none) := by
  constructor
  · intro h
    have hng : ¬ (t > now + TokenTTL) := by omega
    simp [getSession, createSession, hng]
  · intro h
    have hg : t > now + TokenTTL := h
    simp [getSession, createSession, hg]

/-- C10, witness: on the empty store, a session created at time 0 is
returned by a lookup at time 5 and absent at time `TokenTTL + 1`. -/
theorem C10_witness :
    (getSession
        (createSession (fun _ => none) "tok" "ck" "pk" "w" "c" 0) 5 "tok" =
      some { claudeAPIKey := "ck", postmanAPIKey := "pk",
             postmanWorkspaceID := "w", postmanCollectionID := "c",
             createdAt := 0, expiresAt := 0 + TokenTTL }) ∧
    (getSession
        (createSession (fun _ => none) "tok" "ck" "pk" "w" "c" 0)
        (TokenTTL + 1) "tok" = none) :=
  ⟨(C10_session_expiry (fun _ => none) "tok" "ck" "pk" "w" "c" 0 5).1
      (by norm_num [TokenTTL]),
   (C10_session_expiry (fun _ => none) "tok" "ck" "pk" "w" "c" 0
      (TokenTTL + 1)).2 (by norm_num [TokenTTL])⟩

end PRDoc
